import Mathlib

/-!
Shallow embedding of the BOD repository (a board-of-directors extraction
pipeline): the verification path in src/models/enhanced.py, the single-shot
path in src/models/search.py, and the per-URL dispatch of src/app.py.

Modelling conventions:
the Python dicts that hold member records are insertion-ordered association
lists with string values; pandas NaN cells are `Option.none`; the network
response of the generative API and the Python json.loads function are
explicit parameters of the embedded extractor; the output CSV file is the
list of its lines, a nonexistent or empty file being the empty list.
-/

namespace BOD

/-- A Python dict with string keys and string values, as used for the member
records, modelled as an insertion-ordered association list. -/
abbrev Rec := List (String × String)

/-- Lookup of a key in a record, first binding wins (Python dict access). -/
def recLookup : Rec → String → Option String
  | [], _ => none
  | (k, v) :: rest, key => if k = key then some v else recLookup rest key

/-- Python dict.get with a default value. -/
def recGetD (r : Rec) (key d : String) : String := (recLookup r key).getD d

/-- Python membership test `key in dict`. -/
def recHasKey (r : Rec) (key : String) : Bool := (recLookup r key).isSome

/-- Python dict key list, in insertion order. -/
def recKeys (r : Rec) : List String := r.map Prod.fst

/-- Python dict assignment `r[key] = v`: overwrite in place when the key is
present (the key keeps its position), otherwise append the new binding at
the end. -/
def setKey (key v : String) : Rec → Rec
  | [] => [(key, v)]
  | (k, w) :: rest => if k = key then (k, v) :: rest else (k, w) :: setKey key v rest

/-- One row of the verification-path input table (enhanced.py). A pandas
cell that is NaN (a blank CSV cell) is `none`; pd.notna is `Option.isSome`. -/
structure Row where
  website_url : Option String
  first_name : Option String
  last_name : Option String
  title : Option String
  biography : Option String

/-- Embedding of BoardMemberVerifier.get_existing_board_members
(enhanced.py lines 45-60): the rows of the table whose Website URL cell
equals the given url contribute a member dict when both name cells are
non-NaN; Title and Biography fall back to the empty string when NaN. -/
def get_existing_board_members (website_url : String) (df : List Row) : List Rec :=
  (df.filter fun row => row.website_url == some website_url).filterMap fun row =>
    match row.first_name, row.last_name with
    | some fn, some ln =>
        some [("First Name", fn), ("Last Name", ln),
              ("Title", row.title.getD ""), ("Biography", row.biography.getD "")]
    | _, _ => none

/-- Case-insensitive first+last name comparison used by filter_new_members
(enhanced.py lines 162-163); an absent key defaults to the empty string. -/
def nameMatches (member existing : Rec) : Bool :=
  (recGetD member "First Name" "").toLower == (recGetD existing "First Name" "").toLower &&
    (recGetD member "Last Name" "").toLower == (recGetD existing "Last Name" "").toLower

/-- Inner loop of filter_new_members (enhanced.py lines 159-165): whether
some existing member matches the candidate. -/
def is_existing (member : Rec) (existing_members : List Rec) : Bool :=
  existing_members.any fun e => nameMatches member e

/-- Embedding of BoardMemberVerifier.filter_new_members (enhanced.py lines
153-170): keep the candidates with no case-insensitive name match. -/
def filter_new_members (all_members existing_members : List Rec) : List Rec :=
  all_members.filter fun member => ! is_existing member existing_members

/-- Whitespace characters removed by Python str.strip (the ASCII ones). -/
def isPySpace (c : Char) : Bool :=
  c = ' ' || c = '\t' || c = '\n' || c = '\r' || c = '\x0b' || c = '\x0c'

/-- Fuel-indexed scan that removes every non-overlapping occurrence of pat,
left to right; the fuel only bounds the scan, and with fuel at least the
length of the text this is Python text.replace(pat, ""). -/
def removeAllAux (pat : List Char) : Nat → List Char → List Char
  | _, [] => []
  | 0, s => s
  | fuel + 1, c :: rest =>
      if !pat.isEmpty && pat.isPrefixOf (c :: rest) then
        removeAllAux pat fuel (rest.drop (pat.length - 1))
      else
        c :: removeAllAux pat fuel rest

/-- Python text.replace(pat, "") for a non-empty pat. -/
def removeAll (pat s : List Char) : List Char := removeAllAux pat s.length s

/-- Whether pat occurs as a contiguous substring of the text. -/
def containsSub (pat : List Char) : List Char → Bool
  | [] => pat.isEmpty
  | c :: rest => pat.isPrefixOf (c :: rest) || containsSub pat rest

/-- Python text.strip(): drop whitespace from both ends. -/
def pyStrip (s : List Char) : List Char :=
  ((s.dropWhile isPySpace).reverse.dropWhile isPySpace).reverse

/-- Opening marker of a fenced JSON block. -/
def fenceJson : List Char := "```json".toList

/-- Plain Markdown code fence marker. -/
def fence : List Char := "```".toList

/-- Literal backslash character. -/
def backslash : Char := '\\'

/-- Cleanup applied to the model reply before JSON parsing, identical in
enhanced.py line 130 and search.py line 116: remove every occurrence of the
json fence opener, then of the plain fence, then of the backslash, then
strip surrounding whitespace. -/
def cleanupChars (s : List Char) : List Char :=
  pyStrip (removeAll [backslash] (removeAll fence (removeAll fenceJson s)))

/-- String form of the cleanup step. -/
def cleanupStr (s : String) : String := String.mk (cleanupChars s.data)

/-- One part of a candidate content in the generative API response. -/
structure GPart where
  text : String

/-- Content of one candidate; the parts key may be absent. -/
structure CandContent where
  parts : Option (List GPart)

/-- One candidate of the API response; the content key may be absent. -/
structure Candidate where
  content : Option CandContent

/-- Decoded JSON body of the generative API response; the candidates key
may be absent. -/
structure GeminiData where
  candidates : Option (List Candidate)

/-- Outcome of the requests.post call together with response.json()
decoding: a transport failure (including a non-2xx status raised by
raise_for_status), a JSON decode failure on the response body, or a decoded
body. -/
inductive ApiResponse where
  | transportError (msg : String)
  | responseJsonError (msg : String)
  | ok (data : GeminiData)

/-- Value returned by search_for_board_members: the JSON object parsed from
the model reply (board_members and advisory_members are present only when
the key exists and holds a list, status and message are optional), or a
constructed error object. -/
structure ParsedSearch where
  board_members : Option (List Rec)
  advisory_members : Option (List Rec)
  status : Option String
  message : Option String
deriving DecidableEq

/-- Error object built by the failure branches of search_for_board_members. -/
def errorResult (msg : String) : ParsedSearch :=
  { board_members := none, advisory_members := none,
    status := some "error", message := some msg }

/-- Guard on the response structure (enhanced.py line 127, search.py line
114): candidates present and nonempty, first candidate has content, content
has parts, parts nonempty; returns the first text part when complete. -/
def extractText (d : GeminiData) : Option String :=
  match d.candidates with
  | some (c0 :: _) =>
      match c0.content with
      | some content =>
          match content.parts with
          | some (p0 :: _) => some p0.text
          | _ => none
      | none => none
  | _ => none

/-- Embedding of BoardMemberVerifier.search_for_board_members (enhanced.py
lines 112-151). The network outcome and the Python json.loads function are
parameters of the embedding; every failure branch returns the matching
error object instead of raising, mirroring the except clauses. -/
def search_for_board_members (loads : String → Except String ParsedSearch) :
    ApiResponse → ParsedSearch
  | .transportError msg => errorResult ("API request failed: " ++ msg)
  | .responseJsonError msg => errorResult ("Failed to parse API response: " ++ msg)
  | .ok data =>
      match extractText data with
      | some txt =>
          match loads (cleanupStr txt) with
          | .ok j => j
          | .error e => errorResult ("Failed to parse JSON: " ++ e)
      | none => errorResult "Unexpected response structure from API"

/-- Failure condition of the verification-path extractor call: a transport
or request error, a JSON decode failure on the response body, a response
missing the candidates/content/parts structure, or a JSON decode failure on
the cleaned reply text. -/
def extractorFailed (loads : String → Except String ParsedSearch)
    (resp : ApiResponse) : Prop :=
  (∃ m, resp = ApiResponse.transportError m) ∨
  (∃ m, resp = ApiResponse.responseJsonError m) ∨
  (∃ d, resp = ApiResponse.ok d ∧ extractText d = none) ∨
  (∃ d t e, resp = ApiResponse.ok d ∧ extractText d = some t ∧
    loads (cleanupStr t) = Except.error e)

/-- Per-URL result record built by process_website and by the error branch
of run (enhanced.py lines 203-208 and 285-290). -/
structure SiteResult where
  website_url : String
  new_members : List Rec
  feedback : String
  search_status : String
deriving DecidableEq

/-- Embedding of BoardMemberVerifier.process_website (enhanced.py lines
172-208): look up existing members, run the extractor, merge board and
advisory lists when present as lists, dedup, and score the count of new
members. -/
def process_website (loads : String → Except String ParsedSearch)
    (website_url : String) (df : List Row) (resp : ApiResponse) : SiteResult :=
  let existing_members := get_existing_board_members website_url df
  let search_result := search_for_board_members loads resp
  let all_members :=
    search_result.board_members.getD [] ++ search_result.advisory_members.getD []
  let new_members := filter_new_members all_members existing_members
  let feedback :=
    if new_members.length > 5 then "POOR"
    else if new_members.length > 0 then "AVERAGE"
    else "GOOD"
  { website_url := website_url, new_members := new_members,
    feedback := feedback, search_status := search_result.status.getD "unknown" }

/-- Outcome of one concurrent future in BoardMemberVerifier.run: the task
returned a result, or raised with the given message. -/
inductive TaskOutcome where
  | ok (r : SiteResult)
  | raised (msg : String)
deriving DecidableEq

/-- Result-collection loop of BoardMemberVerifier.run (enhanced.py lines
277-290): every task contributes one entry; a raising task is replaced by a
placeholder result carrying the error text and never aborts the batch. -/
def collect_results (tasks : List (String × TaskOutcome)) : List SiteResult :=
  tasks.map fun t =>
    match t.2 with
    | .ok r => r
    | .raised e =>
        { website_url := t.1, new_members := [],
          feedback := "Error processing website: " ++ e, search_status := "error" }

/-- Row list handed to save_to_csv for one URL by process_model1 (app.py
lines 73-83): a board_data of None, or an empty list (both falsy), yields
the API-failure row; exactly one record whose Status field is the
no-results sentinel yields the fixed Not Found row; anything else passes
through unchanged. -/
def process_model1_entry (website_url : String) (board_data : Option (List Rec)) : List Rec :=
  match board_data with
  | some (b0 :: bs) =>
      if bs.isEmpty && (recLookup b0 "Status" == some "No board members found") then
        [[("Website URL", website_url), ("Status", "Not Found"),
          ("Comments", "No board members found")]]
      else b0 :: bs
  | some [] =>
      [[("Website URL", website_url), ("Status", "Not Found"),
        ("Comments", "API call failed or no data returned")]]
  | none =>
      [[("Website URL", website_url), ("Status", "Not Found"),
        ("Comments", "API call failed or no data returned")]]

/-- One physical line of the output CSV: the header line or a data row
rendered in fieldname order. -/
inductive CsvLine where
  | header (fields : List String)
  | row (vals : List String)
deriving DecidableEq

/-- Whether a CSV line is the header line. -/
def isHeader : CsvLine → Bool
  | .header _ => true
  | .row _ => false

/-- Number of header lines in a file. -/
def countHeaders (f : List CsvLine) : Nat := f.countP isHeader

/-- Fieldnames chosen by save_to_csv (search.py lines 151-155): Website URL
first, then the remaining keys of the first record in order. -/
def save_fieldnames (data : List Rec) : List String :=
  match data with
  | [] => []
  | r :: _ =>
      if recHasKey r "Website URL" then
        "Website URL" :: (recKeys r).filter (fun k => k != "Website URL")
      else recKeys r

/-- Embedding of save_to_csv (search.py lines 142-169) on a file modelled
as its list of lines; a missing or empty file is the empty list, matching
the isfile-and-nonzero-size check. Returns the new file contents and the
mutated record list. An empty data list writes and mutates nothing. The
header is written only when write_header holds and the file was missing or
empty; DictWriter renders a data row by looking up each fieldname in the
record, a missing key rendering as the empty string. -/
def save_to_csv (data : List Rec) (website_url : String)
    (file : List CsvLine) (write_header : Bool) : List CsvLine × List Rec :=
  if data.isEmpty then (file, data)
  else
    let mutated := data.map (setKey "Website URL" website_url)
    let fieldnames := save_fieldnames mutated
    let file_exists := !file.isEmpty
    let headerLines :=
      if write_header && !file_exists then [CsvLine.header fieldnames] else []
    let rows := mutated.map fun r => CsvLine.row (fieldnames.map fun k => recGetD r k "")
    (file ++ headerLines ++ rows, mutated)

/-! Helper lemmas about the cleanup scan. -/

theorem removeAllAux_eq_of_not_contains (pat : List Char) (fuel : Nat) :
    ∀ s : List Char, containsSub pat s = false → removeAllAux pat fuel s = s := by
  induction fuel with
  | zero => intro s _; cases s <;> rfl
  | succ f ih =>
      intro s hs
      cases s with
      | nil => rfl
      | cons c rest =>
          rw [containsSub] at hs
          have h1 : pat.isPrefixOf (c :: rest) = false := by
            cases hp : pat.isPrefixOf (c :: rest)
            · rfl
            · rw [hp] at hs; simp at hs
          have h2 : containsSub pat rest = false := by
            cases hc : containsSub pat rest
            · rfl
            · rw [hc] at hs; simp at hs
          simp [removeAllAux, h1, ih rest h2]

theorem removeAll_eq_of_not_contains (pat s : List Char)
    (h : containsSub pat s = false) : removeAll pat s = s :=
  removeAllAux_eq_of_not_contains pat s.length s h

/-- Claim C8 (amended): the cleanup step is the identity on text that has
no Markdown fence markers, no backslash characters, and no leading or
trailing whitespace. -/
theorem c8_cleanup_noop (s : List Char)
    (h1 : containsSub fenceJson s = false)
    (h2 : containsSub fence s = false)
    (h3 : containsSub [backslash] s = false)
    (h4 : s.dropWhile isPySpace = s)
    (h5 : s.reverse.dropWhile isPySpace = s.reverse) :
    cleanupChars s = s := by
  rw [cleanupChars, removeAll_eq_of_not_contains _ _ h1,
    removeAll_eq_of_not_contains _ _ h2, removeAll_eq_of_not_contains _ _ h3,
    pyStrip, h4, h5, List.reverse_reverse]

/-- Claim C8 fails as stated: the string made of one backslash character
contains no fence marker, yet the cleanup step erases the backslash and
returns a different string. -/
theorem c8_cleanup_counterexample :
    containsSub fence "\\".data = false ∧ containsSub fenceJson "\\".data = false ∧
      cleanupStr "\\" ≠ "\\" := by decide

/-- Witness for the amended claim C8 at a concrete fence-free input. -/
theorem c8_cleanup_noop_witness : cleanupChars "member".data = "member".data :=
  c8_cleanup_noop "member".data (by decide) (by decide) (by decide) (by decide)
    (by decide)

/-- Claim C2: the dedup filter keeps exactly the candidates with no
case-insensitive first+last name match among the existing members, and the
kept candidates form a sublist of the input, hence appear in their original
relative order. -/
theorem c2_filter_new_members_spec (all_members existing_members : List Rec) :
    (filter_new_members all_members existing_members).Sublist all_members ∧
    ∀ m, m ∈ filter_new_members all_members existing_members ↔
      m ∈ all_members ∧
        ¬ ∃ e ∈ existing_members,
          (recGetD m "First Name" "").toLower = (recGetD e "First Name" "").toLower ∧
            (recGetD m "Last Name" "").toLower = (recGetD e "Last Name" "").toLower := by
  refine ⟨List.filter_sublist _, fun m => ?_⟩
  rw [filter_new_members, List.mem_filter]
  simp only [Bool.not_eq_true', is_existing, List.any_eq_false, nameMatches,
    Bool.and_eq_true, beq_iff_eq, not_exists, not_and]

/-- Witness for claim C2: a case-differing duplicate of an existing member
is filtered out, so the output is the empty sublist. -/
theorem c2_filter_new_members_spec_witness :
    (filter_new_members [[("First Name", "John"), ("Last Name", "Doe")]]
        [[("First Name", "john"), ("Last Name", "doe")]]).Sublist
      [[("First Name", "John"), ("Last Name", "Doe")]] :=
  (c2_filter_new_members_spec _ _).1

/-- Claim C9: the existing-members list for a URL consists of exactly the
rows of the table whose Website URL cell equals that URL and whose first
and last name cells are both present, in table order, mapped to member
dicts with empty-string defaults for Title and Biography. -/
theorem c9_existing_members_rows (website_url : String) (df : List Row) :
    get_existing_board_members website_url df =
      (df.filter fun row =>
          row.website_url == some website_url &&
            row.first_name.isSome && row.last_name.isSome).map
        fun row =>
          [("First Name", row.first_name.getD ""), ("Last Name", row.last_name.getD ""),
           ("Title", row.title.getD ""), ("Biography", row.biography.getD "")] := by
  induction df with
  | nil => rfl
  | cons r rest ih =>
      simp only [get_existing_board_members, List.filter_cons] at ih ⊢
      cases hurl : r.website_url == some website_url
      · simpa [hurl] using ih
      · cases hf : r.first_name with
        | none => simpa [hurl, hf] using ih
        | some fn =>
            cases hl : r.last_name with
            | none => simpa [hurl, hf, hl] using ih
            | some ln => simpa [hurl, hf, hl] using ih

/-- Witness for claim C9 at a concrete table: the row with a missing name
cell and the row for another URL are dropped. -/
theorem c9_existing_members_rows_witness :
    get_existing_board_members "https://a.com"
        ([⟨some "https://a.com", some "John", some "Doe", none, some "bio"⟩,
          ⟨some "https://a.com", none, some "X", some "t", none⟩,
          ⟨some "https://b.com", some "A", some "B", none, none⟩] : List Row) =
      (([⟨some "https://a.com", some "John", some "Doe", none, some "bio"⟩,
         ⟨some "https://a.com", none, some "X", some "t", none⟩,
         ⟨some "https://b.com", some "A", some "B", none, none⟩] : List Row).filter fun row =>
          row.website_url == some "https://a.com" &&
            row.first_name.isSome && row.last_name.isSome).map
        (fun row =>
          [("First Name", row.first_name.getD ""), ("Last Name", row.last_name.getD ""),
           ("Title", row.title.getD ""), ("Biography", row.biography.getD "")]) :=
  c9_existing_members_rows "https://a.com" _

/-- Helper: the feedback field of a site result is exactly the threshold
chain of enhanced.py lines 195-201 applied to the deduplicated count. -/
theorem process_website_feedback (loads : String → Except String ParsedSearch)
    (website_url : String) (df : List Row) (resp : ApiResponse) :
    (process_website loads website_url df resp).feedback =
      if (process_website loads website_url df resp).new_members.length > 5 then "POOR"
      else if (process_website loads website_url df resp).new_members.length > 0 then
        "AVERAGE"
      else "GOOD" := rfl

/-- Claim C1: whenever the per-URL task completes, the feedback label is a
pure function of the number of new members after dedup: zero gives GOOD,
one to five gives AVERAGE, and more than five gives POOR. -/
theorem c1_feedback_scores (loads : String → Except String ParsedSearch)
    (website_url : String) (df : List Row) (resp : ApiResponse) :
    ((process_website loads website_url df resp).new_members.length = 0 →
      (process_website loads website_url df resp).feedback = "GOOD") ∧
    (1 ≤ (process_website loads website_url df resp).new_members.length →
      (process_website loads website_url df resp).new_members.length ≤ 5 →
      (process_website loads website_url df resp).feedback = "AVERAGE") ∧
    (5 < (process_website loads website_url df resp).new_members.length →
      (process_website loads website_url df resp).feedback = "POOR") := by
  refine ⟨fun h0 => ?_, fun hlo hhi => ?_, fun h5 => ?_⟩ <;>
    rw [process_website_feedback] <;> split_ifs <;> first | rfl | omega

/-- Witness for claim C1 at zero, three and six new members. -/
theorem c1_feedback_scores_witness :
    (process_website (fun _ => Except.ok ⟨none, none, some "success", none⟩)
        "https://a.com" [] (ApiResponse.ok ⟨some [⟨some ⟨some [⟨"x"⟩]⟩⟩]⟩)).feedback =
      "GOOD" ∧
    (process_website
        (fun _ => Except.ok ⟨some [[("First Name", "A")], [("First Name", "B")],
          [("First Name", "C")]], none, some "success", none⟩)
        "https://a.com" [] (ApiResponse.ok ⟨some [⟨some ⟨some [⟨"x"⟩]⟩⟩]⟩)).feedback =
      "AVERAGE" ∧
    (process_website
        (fun _ => Except.ok ⟨some [[("First Name", "A")], [("First Name", "B")],
          [("First Name", "C")], [("First Name", "D")], [("First Name", "E")],
          [("First Name", "F")]], none, some "success", none⟩)
        "https://a.com" [] (ApiResponse.ok ⟨some [⟨some ⟨some [⟨"x"⟩]⟩⟩]⟩)).feedback =
      "POOR" :=
  ⟨(c1_feedback_scores _ _ _ _).1 (by decide),
   (c1_feedback_scores _ _ _ _).2.1 (by decide) (by decide),
   (c1_feedback_scores _ _ _ _).2.2 (by decide)⟩

/-- Helper: when the extractor returns one of its error objects, the site
result has empty new members, feedback GOOD and search status error. -/
theorem process_website_of_errorResult (loads : String → Except String ParsedSearch)
    (website_url : String) (df : List Row) (resp : ApiResponse) (msg : String)
    (h : search_for_board_members loads resp = errorResult msg) :
    process_website loads website_url df resp =
      { website_url := website_url, new_members := [],
        feedback := "GOOD", search_status := "error" } := by
  unfold process_website
  rw [h]
  rfl

/-- Claim C3 fails on the code: on a transport error the extractor returns
an error object, process_website then deduplicates an empty candidate list
and assigns the score GOOD, so the feedback of the result is one of the
three scores and not an error string. -/
theorem c3_error_feedback_counterexample :
    (process_website (fun s => Except.error s) "https://bad.com" []
        (ApiResponse.transportError "connection refused")).search_status = "error" ∧
    (process_website (fun s => Except.error s) "https://bad.com" []
        (ApiResponse.transportError "connection refused")).feedback = "GOOD" ∧
    (process_website (fun s => Except.error s) "https://bad.com" []
        (ApiResponse.transportError "connection refused")).feedback ∈
      (["GOOD", "AVERAGE", "POOR"] : List String) := by decide

/-- Claim C3 (amended): for every URL whose extractor call fails with a
fetch or parse error, the result carries search status error, an empty
new-members list, and the score GOOD as feedback; an error-string feedback
arises only when the per-URL task itself raises. -/
theorem c3_error_feedback_amended (loads : String → Except String ParsedSearch)
    (website_url : String) (df : List Row) (resp : ApiResponse)
    (h : extractorFailed loads resp) :
    (process_website loads website_url df resp).search_status = "error" ∧
    (process_website loads website_url df resp).new_members = [] ∧
    (process_website loads website_url df resp).feedback = "GOOD" := by
  have key : ∃ msg, search_for_board_members loads resp = errorResult msg := by
    rcases h with ⟨m, rfl⟩ | ⟨m, rfl⟩ | ⟨d, rfl, hd⟩ | ⟨d, t, e, rfl, hd, hl⟩
    · exact ⟨"API request failed: " ++ m, rfl⟩
    · exact ⟨"Failed to parse API response: " ++ m, rfl⟩
    · exact ⟨"Unexpected response structure from API",
        by simp [search_for_board_members, hd]⟩
    · exact ⟨"Failed to parse JSON: " ++ e,
        by simp [search_for_board_members, hd, hl]⟩
  obtain ⟨msg, hmsg⟩ := key
  rw [process_website_of_errorResult loads website_url df resp msg hmsg]
  exact ⟨rfl, rfl, rfl⟩

/-- Witness for the amended claim C3 at a concrete transport error. -/
theorem c3_error_feedback_amended_witness :
    (process_website (fun s => Except.error s) "https://bad.com" []
        (ApiResponse.transportError "boom")).search_status = "error" ∧
    (process_website (fun s => Except.error s) "https://bad.com" []
        (ApiResponse.transportError "boom")).new_members = [] ∧
    (process_website (fun s => Except.error s) "https://bad.com" []
        (ApiResponse.transportError "boom")).feedback = "GOOD" :=
  c3_error_feedback_amended _ _ _ _ (Or.inl ⟨"boom", rfl⟩)

/-- Claim C4: the collection loop of run yields one entry per task; a task
that raised contributes, at its own position, a placeholder with empty new
members, search status error and a feedback string carrying the error text,
while a completed task contributes its own result, so one exception never
aborts the batch. -/
theorem c4_run_error_isolation (tasks : List (String × TaskOutcome)) (i : Nat)
    (url e : String) (r : SiteResult) :
    (collect_results tasks).length = tasks.length ∧
    (tasks[i]? = some (url, TaskOutcome.raised e) →
      (collect_results tasks)[i]? =
        some { website_url := url, new_members := [],
               feedback := "Error processing website: " ++ e,
               search_status := "error" }) ∧
    (tasks[i]? = some (url, TaskOutcome.ok r) →
      (collect_results tasks)[i]? = some r) := by
  refine ⟨by simp [collect_results], fun h => ?_, fun h => ?_⟩ <;>
    simp [collect_results, List.getElem?_map, h]

/-- Witness for claim C4: a two-task batch with one raising task keeps both
entries, the failing one as the error placeholder. -/
theorem c4_run_error_isolation_witness :
    (collect_results
        [("https://good.com", TaskOutcome.ok ⟨"https://good.com", [], "GOOD", "success"⟩),
         ("https://bad.com", TaskOutcome.raised "boom")]).length =
      ([("https://good.com", TaskOutcome.ok ⟨"https://good.com", [], "GOOD", "success"⟩),
        ("https://bad.com", TaskOutcome.raised "boom")] :
          List (String × TaskOutcome)).length ∧
    (collect_results
        [("https://good.com", TaskOutcome.ok ⟨"https://good.com", [], "GOOD", "success"⟩),
         ("https://bad.com", TaskOutcome.raised "boom")])[1]? =
      some ⟨"https://bad.com", [], "Error processing website: " ++ "boom", "error"⟩ ∧
    (collect_results
        [("https://good.com", TaskOutcome.ok ⟨"https://good.com", [], "GOOD", "success"⟩),
         ("https://bad.com", TaskOutcome.raised "boom")])[0]? =
      some ⟨"https://good.com", [], "GOOD", "success"⟩ :=
  ⟨(c4_run_error_isolation _ 1 "https://bad.com" "boom" ⟨"", [], "", ""⟩).1,
   (c4_run_error_isolation _ 1 "https://bad.com" "boom" ⟨"", [], "", ""⟩).2.1 rfl,
   (c4_run_error_isolation _ 0 "https://good.com" "x"
     ⟨"https://good.com", [], "GOOD", "success"⟩).2.2 rfl⟩

/-! Helper lemmas for comparing the error messages of the extractor. -/

theorem string_ne_of_getElem (s t : String) (i : Nat)
    (h : s.data[i]? ≠ t.data[i]?) : s ≠ t :=
  fun hst => h (by rw [hst])

theorem append_data_getElem (p m : String) (i : Nat) (hi : i < p.data.length) :
    (p ++ m).data[i]? = p.data[i]? := by
  rw [String.data_append, List.getElem?_append, if_pos hi]

theorem append_ne_append (p m q n : String) (i : Nat) (hp : i < p.data.length)
    (hq : i < q.data.length) (h : p.data[i]? ≠ q.data[i]?) : p ++ m ≠ q ++ n := by
  apply string_ne_of_getElem _ _ i
  rw [append_data_getElem p m i hp, append_data_getElem q n i hq]
  exact h

theorem append_ne_string (p m q : String) (i : Nat) (hp : i < p.data.length)
    (h : p.data[i]? ≠ q.data[i]?) : p ++ m ≠ q := by
  apply string_ne_of_getElem _ _ i
  rw [append_data_getElem p m i hp]
  exact h

/-- Claim C5: each extractor failure mode returns a structured object with
status error and its own message, the messages of distinct modes are never
equal, and no failure escapes to the caller (the embedded function is total
and returns an error object in every failure branch). -/
theorem c5_extractor_error_returns (loads : String → Except String ParsedSearch)
    (m m' t e : String) (d : GeminiData) :
    search_for_board_members loads (ApiResponse.transportError m) =
      errorResult ("API request failed: " ++ m) ∧
    search_for_board_members loads (ApiResponse.responseJsonError m) =
      errorResult ("Failed to parse API response: " ++ m) ∧
    (extractText d = none →
      search_for_board_members loads (ApiResponse.ok d) =
        errorResult "Unexpected response structure from API") ∧
    (extractText d = some t → loads (cleanupStr t) = Except.error e →
      search_for_board_members loads (ApiResponse.ok d) =
        errorResult ("Failed to parse JSON: " ++ e)) ∧
    (∀ msg, (errorResult msg).status = some "error") ∧
    ("API request failed: " ++ m ≠ "Failed to parse API response: " ++ m') ∧
    ("API request failed: " ++ m ≠ "Failed to parse JSON: " ++ m') ∧
    ("API request failed: " ++ m ≠ "Unexpected response structure from API") ∧
    ("Failed to parse API response: " ++ m ≠ "Failed to parse JSON: " ++ m') ∧
    ("Failed to parse API response: " ++ m ≠ "Unexpected response structure from API") ∧
    ("Failed to parse JSON: " ++ m ≠ "Unexpected response structure from API") := by
  refine ⟨rfl, rfl, fun h => by simp [search_for_board_members, h],
    fun h1 h2 => by simp [search_for_board_members, h1, h2],
    fun msg => rfl, ?_, ?_, ?_, ?_, ?_, ?_⟩
  · exact append_ne_append _ _ _ _ 0 (by decide) (by decide) (by decide)
  · exact append_ne_append _ _ _ _ 0 (by decide) (by decide) (by decide)
  · exact append_ne_string _ _ _ 0 (by decide) (by decide)
  · exact append_ne_append _ _ _ _ 16 (by decide) (by decide) (by decide)
  · exact append_ne_string _ _ _ 0 (by decide) (by decide)
  · exact append_ne_string _ _ _ 0 (by decide) (by decide)

/-- Witness for claim C5 at a concrete transport error, a malformed
response, and a JSON decode failure on the cleaned text. -/
theorem c5_extractor_error_returns_witness :
    search_for_board_members (fun s => Except.error s)
        (ApiResponse.transportError "boom") =
      errorResult ("API request failed: " ++ "boom") ∧
    search_for_board_members (fun s => Except.error s) (ApiResponse.ok ⟨none⟩) =
      errorResult "Unexpected response structure from API" ∧
    search_for_board_members (fun s => Except.error s)
        (ApiResponse.ok ⟨some [⟨some ⟨some [⟨"oops"⟩]⟩⟩]⟩) =
      errorResult ("Failed to parse JSON: " ++ "oops") :=
  ⟨(c5_extractor_error_returns (fun s => Except.error s) "boom" "x" "t" "e" ⟨none⟩).1,
   (c5_extractor_error_returns (fun s => Except.error s) "boom" "x" "t" "e"
     ⟨none⟩).2.2.1 rfl,
   (c5_extractor_error_returns (fun s => Except.error s) "boom" "x" "oops" "oops"
     ⟨some [⟨some ⟨some [⟨"oops"⟩]⟩⟩]⟩).2.2.2.1 rfl rfl⟩

/-- Claim C6: a single extractor record whose Status field equals the
no-results sentinel yields exactly the fixed Not Found row regardless of
its other fields, and an absent extractor result yields exactly the Not
Found row with the API-failure comment. -/
theorem c6_normalizer_not_found (website_url : String) (r0 : Rec)
    (h : recLookup r0 "Status" = some "No board members found") :
    process_model1_entry website_url (some [r0]) =
      [[("Website URL", website_url), ("Status", "Not Found"),
        ("Comments", "No board members found")]] ∧
    process_model1_entry website_url none =
      [[("Website URL", website_url), ("Status", "Not Found"),
        ("Comments", "API call failed or no data returned")]] ∧
    ∀ r ∈ process_model1_entry website_url (some [r0]),
      recLookup r "Status" = some "Not Found" ∧
      recLookup r "Comments" = some "No board members found" := by
  have h1 : process_model1_entry website_url (some [r0]) =
      [[("Website URL", website_url), ("Status", "Not Found"),
        ("Comments", "No board members found")]] := by
    simp [process_model1_entry, h]
  refine ⟨h1, rfl, ?_⟩
  rw [h1]
  intro r hr
  simp only [List.mem_singleton] at hr
  subst hr
  exact ⟨rfl, rfl⟩

/-- Witness for claim C6 at a concrete sentinel record with an extra field. -/
theorem c6_normalizer_not_found_witness :
    process_model1_entry "https://a.com"
        (some [[("Status", "No board members found"),
                ("Comments", "No information available")]]) =
      [[("Website URL", "https://a.com"), ("Status", "Not Found"),
        ("Comments", "No board members found")]] ∧
    process_model1_entry "https://a.com" none =
      [[("Website URL", "https://a.com"), ("Status", "Not Found"),
        ("Comments", "API call failed or no data returned")]] :=
  ⟨(c6_normalizer_not_found "https://a.com"
      [("Status", "No board members found"), ("Comments", "No information available")]
      (by decide)).1,
   (c6_normalizer_not_found "https://a.com"
      [("Status", "No board members found"), ("Comments", "No information available")]
      (by decide)).2.1⟩

/-! Helper lemmas for counting header lines written by save_to_csv. -/

theorem countHeaders_append (a b : List CsvLine) :
    countHeaders (a ++ b) = countHeaders a + countHeaders b :=
  List.countP_append _ _ _

theorem countHeaders_rows (l : List Rec) (g : Rec → List String) :
    countHeaders (l.map fun r => CsvLine.row (g r)) = 0 := by
  induction l with
  | nil => rfl
  | cons r rest ih =>
      simp only [List.map_cons, countHeaders, List.countP_cons, isHeader] at ih ⊢
      simp [ih]

theorem countHeaders_save_to_csv_false (data : List Rec) (u : String)
    (f : List CsvLine) :
    countHeaders (save_to_csv data u f false).1 = countHeaders f := by
  cases data with
  | nil => rfl
  | cons d ds =>
      simp only [save_to_csv, List.isEmpty_cons, Bool.false_and, Bool.false_eq_true,
        if_false, ite_false]
      rw [countHeaders_append, countHeaders_append, countHeaders_rows]
      rfl

theorem countHeaders_save_to_csv_le (data : List Rec) (u : String)
    (f : List CsvLine) (wh : Bool) :
    countHeaders (save_to_csv data u f wh).1 ≤ countHeaders f + 1 := by
  cases data with
  | nil => simp [save_to_csv, countHeaders]
  | cons d ds =>
      simp only [save_to_csv, List.isEmpty_cons, Bool.false_eq_true, if_false]
      rw [countHeaders_append, countHeaders_append, countHeaders_rows]
      split
      · simp [countHeaders, List.countP_cons, isHeader]
      · simp [countHeaders]

/-- Claim C7 fails as stated in its second half: a write call with
write_header set to false that targets a nonexistent file writes its data
row without any header line. -/
theorem c7_header_counterexample :
    (save_to_csv [[("Status", "X")]] "https://a.com" [] false).1 =
      [CsvLine.row ["https://a.com", "X"]] ∧
    countHeaders (save_to_csv [[("Status", "X")]] "https://a.com" [] false).1 = 0 := by
  decide

/-- Claim C7 (amended): after two successive write calls where the second
passes write_header false, a file that started without a header line holds
at most one header line; and every write call with write_header true, a
non-empty record list, and a nonexistent or empty target file writes the
header line before any data rows. -/
theorem c7_header_amended (d1 d2 : List Rec) (u1 u2 : String)
    (f0 : List CsvLine) (wh1 : Bool) (h0 : countHeaders f0 = 0) :
    countHeaders (save_to_csv d2 u2 (save_to_csv d1 u1 f0 wh1).1 false).1 ≤ 1 ∧
    ∀ d u, d ≠ [] →
      ∃ fs rest, (save_to_csv d u [] true).1 = CsvLine.header fs :: rest := by
  constructor
  · rw [countHeaders_save_to_csv_false]
    have hle := countHeaders_save_to_csv_le d1 u1 f0 wh1
    omega
  · intro d u hd
    obtain ⟨x, xs, rfl⟩ := List.exists_cons_of_ne_nil hd
    exact ⟨_, _, rfl⟩

/-- Witness for the amended claim C7 at concrete successive writes to a
fresh file. -/
theorem c7_header_amended_witness :
    countHeaders (save_to_csv [[("B", "2")]] "https://a.com"
        (save_to_csv [[("A", "1")]] "https://a.com" [] true).1 false).1 ≤ 1 ∧
    ∃ fs rest, (save_to_csv [[("A", "1")]] "https://a.com" [] true).1 =
      CsvLine.header fs :: rest :=
  ⟨(c7_header_amended [[("A", "1")]] [[("B", "2")]] "https://a.com" "https://a.com"
      [] true rfl).1,
   (c7_header_amended [[("A", "1")]] [[("B", "2")]] "https://a.com" "https://a.com"
      [] true rfl).2 [[("A", "1")]] "https://a.com" (by decide)⟩

/-! Helper lemmas about the dict assignment performed by save_to_csv. -/

theorem recLookup_setKey_self (key v : String) (r : Rec) :
    recLookup (setKey key v r) key = some v := by
  induction r with
  | nil => simp [setKey, recLookup]
  | cons p rest ih =>
      obtain ⟨k, w⟩ := p
      by_cases h : k = key
      · simp [setKey, h, recLookup]
      · simp [setKey, h, recLookup, ih]

theorem recLookup_setKey_ne (key v k2 : String) (r : Rec) (h : k2 ≠ key) :
    recLookup (setKey key v r) k2 = recLookup r k2 := by
  induction r with
  | nil => simp [setKey, recLookup, Ne.symm h]
  | cons p rest ih =>
      obtain ⟨k, w⟩ := p
      by_cases hk : k = key
      · subst hk
        simp [setKey, recLookup, Ne.symm h]
      · simp [setKey, hk, recLookup, ih]

theorem recKeys_setKey_filter (key v : String) (r : Rec) :
    (recKeys (setKey key v r)).filter (fun k => k != key) =
      (recKeys r).filter (fun k => k != key) := by
  induction r with
  | nil => simp [setKey, recKeys]
  | cons p rest ih =>
      obtain ⟨k, w⟩ := p
      by_cases h : k = key
      · subst h
        simp [setKey, recKeys]
      · simpa [setKey, h, recKeys, List.filter_cons] using ih

/-- Claim C10: with a non-empty record list, save_to_csv rebinds the key
Website URL of every record to the given URL, overwriting any prior value,
leaves the lookup and the order of every other key unchanged, and places
Website URL first in the emitted column order. -/
theorem c10_save_to_csv_mutation (data : List Rec) (website_url : String)
    (file : List CsvLine) (wh : Bool) (h : data ≠ []) :
    (save_to_csv data website_url file wh).2 =
      data.map (setKey "Website URL" website_url) ∧
    (∀ r ∈ (save_to_csv data website_url file wh).2,
      recLookup r "Website URL" = some website_url) ∧
    (∀ r : Rec, ∀ k, k ≠ "Website URL" →
      recLookup (setKey "Website URL" website_url r) k = recLookup r k) ∧
    (∀ r : Rec,
      (recKeys (setKey "Website URL" website_url r)).filter
          (fun k => k != "Website URL") =
        (recKeys r).filter (fun k => k != "Website URL")) ∧
    (save_fieldnames (save_to_csv data website_url file wh).2).head? =
      some "Website URL" := by
  obtain ⟨d0, ds, rfl⟩ := List.exists_cons_of_ne_nil h
  have hsnd : (save_to_csv (d0 :: ds) website_url file wh).2 =
      (d0 :: ds).map (setKey "Website URL" website_url) := by
    simp [save_to_csv]
  refine ⟨hsnd, ?_, fun r k hk => recLookup_setKey_ne _ _ _ _ hk,
    fun r => recKeys_setKey_filter _ _ _, ?_⟩
  · intro r hr
    rw [hsnd] at hr
    simp only [List.mem_map] at hr
    obtain ⟨x, _, rfl⟩ := hr
    exact recLookup_setKey_self _ _ _
  · rw [hsnd]
    simp [save_fieldnames, recHasKey, recLookup_setKey_self]

/-- Witness for claim C10 at a concrete one-record write. -/
theorem c10_save_to_csv_mutation_witness :
    (save_to_csv [[("First Name", "A")]] "https://a.com" [] true).2 =
      [[("First Name", "A")]].map (setKey "Website URL" "https://a.com") ∧
    (save_fieldnames (save_to_csv [[("First Name", "A")]] "https://a.com" []
        true).2).head? = some "Website URL" :=
  ⟨(c10_save_to_csv_mutation [[("First Name", "A")]] "https://a.com" [] true
      (by decide)).1,
   (c10_save_to_csv_mutation [[("First Name", "A")]] "https://a.com" [] true
      (by decide)).2.2.2.2⟩

end BOD
